import Mathlib

/-!
Verification of the overlay-rendering pipeline of `src/lib/ffmpeg.ts`
(video-character-app): the fallback orchestrator `addCharacterOverlays`,
the individual rendering strategies, filter-text escaping, position
clamping, input validation and the lazily-initialized encoder session.

The engine (ffmpeg.wasm) is external: each strategy invocation is modelled
by an outcome supplied by an `Env` record (success with result bytes, or a
thrown error), and the orchestrator is the pure function of those outcomes
obtained by translating the `try`/`catch` control flow of the source.
Alongside the result, the orchestrator returns the trace of strategy
invocations in source order, so ordering claims are statements about the
trace. The strategies' file discipline in the engine's working namespace
is modelled separately by state transformers on the pair of fixed
filenames (`input.mp4`, `output.mp4`).
-/

namespace VideoCharacterApp

/-- Video payloads are byte lists. -/
abbrev Bytes := List Nat

/-- The `Character` annotation record of `src/lib/ffmpeg.ts` (interface
`Character`).  Numeric fields are modelled as rationals. -/
structure Character where
  text : String
  id : Nat
  type : String
  emoji : String
  x : ℚ
  y : ℚ
  scale : ℚ
  rotation : ℚ
deriving DecidableEq

/-- An uploaded `File`: its bytes and its declared MIME type.  The size
seen by validation is the byte length. -/
structure VideoFile where
  bytes : Bytes
  type : String
deriving DecidableEq

/-- `Math.round` of JavaScript on a rational: round half away from zero is
round half up for the non-negative values used here; the source only
rounds non-negative quantities. -/
def jsRound (q : ℚ) : ℤ := ⌊q + 1 / 2⌋

/-! ### Filter-graph building: positions (lines 200-202 and 265-267) -/

/-- `x` pixel position of `addTextOverlays`:
`Math.max(10, Math.min(videoWidth - 200, Math.round((char.x / 100) * videoWidth)))`
with `videoWidth = 1088`. -/
def textOverlayX (xPct : ℚ) : ℤ := max 10 (min (1088 - 200) (jsRound (xPct / 100 * 1088)))

/-- `y` pixel position of `addTextOverlays`:
`Math.max(10, Math.min(videoHeight - 50, Math.round((char.y / 100) * videoHeight)))`
with `videoHeight = 1920`. -/
def textOverlayY (yPct : ℚ) : ℤ := max 10 (min (1920 - 50) (jsRound (yPct / 100 * 1920)))

/-- Font size of `addTextOverlays`:
`Math.max(20, Math.min(60, Math.round(32 * char.scale)))`. -/
def textOverlayFontSize (scale : ℚ) : ℤ := max 20 (min 60 (jsRound (32 * scale)))

/-- `x` pixel position of `addColoredBoxes`:
`Math.max(10, Math.min(videoWidth - 100, Math.round((char.x / 100) * videoWidth)))`. -/
def coloredBoxX (xPct : ℚ) : ℤ := max 10 (min (1088 - 100) (jsRound (xPct / 100 * 1088)))

/-- `y` pixel position of `addColoredBoxes`:
`Math.max(10, Math.min(videoHeight - 100, Math.round((char.y / 100) * videoHeight)))`. -/
def coloredBoxY (yPct : ℚ) : ℤ := max 10 (min (1920 - 100) (jsRound (yPct / 100 * 1920)))

/-- Box size of `addColoredBoxes`:
`Math.max(20, Math.min(80, Math.round(40 * char.scale)))`. -/
def coloredBoxSize (scale : ℚ) : ℤ := max 20 (min 80 (jsRound (40 * scale)))

/-! ### Filter-graph building: text escaping (lines 142 and 273) -/

/-- The backslash character. -/
def backslashChar : Char := Char.ofNat 92

/-- The single-quote character. -/
def quoteChar : Char := Char.ofNat 39

/-- The colon character. -/
def colonChar : Char := ':'

/-- The opening bracket character. -/
def lbracketChar : Char := Char.ofNat 91

/-- The closing bracket character. -/
def rbracketChar : Char := Char.ofNat 93

/-- The characters the spec lists as requiring escaping in the filter
mini-language: backslash, single quote, colon, and the brackets. -/
def isFilterSpecial (a : Char) : Bool :=
  a = backslashChar || a = quoteChar || a = colonChar ||
    a = lbracketChar || a = rbracketChar

/-- One JavaScript global replace `s.replace(/c/g, r)` of a single
character `c` by a string `r`, on text viewed as a character list. -/
def replaceAllChar (c : Char) (r : List Char) : List Char → List Char
  | [] => []
  | a :: rest => (if a = c then r else [a]) ++ replaceAllChar c r rest

/-- The escaping applied by both `addTextOverlays` and
`addSimpleTextOverlay`:
`textToDisplay.replace(/'/g, "\\'").replace(/:/g, "\\:")` — first every
single quote, then every colon, is prefixed with a backslash.  No other
character is touched. -/
def escapedText (s : List Char) : List Char :=
  replaceAllChar colonChar [backslashChar, colonChar]
    (replaceAllChar quoteChar [backslashChar, quoteChar] s)

/-- Modelled from the spec: the engine's filter mini-language parser is
not part of the repository.  Per the spec, backslash, single-quote,
colon, and bracket characters require escaping: a backslash escapes the
character that follows it, which then stands for itself; a non-special
character stands for itself; and a special character standing unescaped
is syntax rather than text — it ends the literal text being read (as an
unescaped quote or colon ends an option value, and an unescaped bracket
opens a stream label).  A trailing lone backslash escapes nothing. -/
def unescapeFilterText : List Char → List Char
  | [] => []
  | [a] => if isFilterSpecial a then [] else [a]
  | a :: b :: rest =>
    if a = backslashChar then b :: unescapeFilterText rest
    else if isFilterSpecial a then []
    else a :: unescapeFilterText (b :: rest)

/-! ### Input validation (`validateVideoFile`, lines 384-401) -/

/-- `String.startsWith`, on the character lists of the two strings. -/
def strStartsWith (s pre : String) : Bool :=
  go s.data pre.data
where
  go : List Char → List Char → Bool
    | _, [] => true
    | [], _ :: _ => false
    | a :: as, b :: bs => a = b && go as bs

/-- Result record of `validateVideoFile`. -/
structure ValidationResult where
  valid : Bool
  error : Option String
deriving DecidableEq

/-- `validateVideoFile`: 100MB upper and 1KB lower size limits, and the
declared MIME type must start with `video/`.  Returns a verdict; the
caller only logs the error text. -/
def validateVideoFile (videoFile : VideoFile) : ValidationResult :=
  let maxSize : Nat := 100 * 1024 * 1024
  let minSize : Nat := 1024
  if videoFile.bytes.length > maxSize then
    { valid := false
      error := some ("Video file too large: " ++
        toString (jsRound ((videoFile.bytes.length : ℚ) / 1024 / 1024)) ++ "MB (max: 100MB)") }
  else if videoFile.bytes.length < minSize then
    { valid := false
      error := some ("Video file too small: " ++ toString videoFile.bytes.length ++ " bytes") }
  else if !(strStartsWith videoFile.type "video/") then
    { valid := false, error := some ("Invalid file type: " ++ videoFile.type) }
  else
    { valid := true, error := none }

/-! ### Strategy file discipline in the engine's working namespace -/

/-- The engine session's working namespace restricted to the two fixed
filenames every strategy uses. -/
structure FS where
  hasInput : Bool
  hasOutput : Bool
deriving DecidableEq

/-- The namespace with neither `input.mp4` nor `output.mp4` present. -/
def cleanFS : FS := ⟨false, false⟩

/-- `addBasicTextOverlay` as a transformer of the working namespace,
parameterized by whether the engine `exec` succeeds.  Success path: write
`input.mp4`, exec produces `output.mp4`, read it, delete both.  Failure
path (`catch`): the handler deletes `input.mp4` and then attempts to
delete `output.mp4` (which does not exist; that throw is swallowed by the
inner cleanup `catch`).  Returns the final namespace and whether the call
returned normally. -/
def addBasicTextOverlay (execOk : Bool) (fs : FS) : FS × Bool :=
  let fs1 : FS := { fs with hasInput := true }
  if execOk then
    let fs2 : FS := { fs1 with hasOutput := true }
    (({ fs2 with hasInput := false, hasOutput := false } : FS), true)
  else
    (({ fs1 with hasInput := false } : FS), false)

/-- `justCopyVideo` as a transformer of the working namespace: same file
discipline as `addBasicTextOverlay`, with cleanup in its `catch` block. -/
def justCopyVideo (execOk : Bool) (fs : FS) : FS × Bool :=
  let fs1 : FS := { fs with hasInput := true }
  if execOk then
    let fs2 : FS := { fs1 with hasOutput := true }
    (({ fs2 with hasInput := false, hasOutput := false } : FS), true)
  else
    (({ fs1 with hasInput := false } : FS), false)

/-- `addTextOverlays` as a transformer of the working namespace.  Its
`catch` block only logs and rethrows: on exec failure `input.mp4` is left
behind. -/
def addTextOverlays (execOk : Bool) (fs : FS) : FS × Bool :=
  let fs1 : FS := { fs with hasInput := true }
  if execOk then
    let fs2 : FS := { fs1 with hasOutput := true }
    (({ fs2 with hasInput := false, hasOutput := false } : FS), true)
  else
    (fs1, false)

/-- `addSimpleTextOverlay` as a transformer of the working namespace.  Its
`catch` block only logs and rethrows: no cleanup on failure. -/
def addSimpleTextOverlay (execOk : Bool) (fs : FS) : FS × Bool :=
  let fs1 : FS := { fs with hasInput := true }
  if execOk then
    let fs2 : FS := { fs1 with hasOutput := true }
    (({ fs2 with hasInput := false, hasOutput := false } : FS), true)
  else
    (fs1, false)

/-- `addColoredBoxes` as a transformer of the working namespace.  Its
`catch` block only logs and rethrows: no cleanup on failure. -/
def addColoredBoxes (execOk : Bool) (fs : FS) : FS × Bool :=
  let fs1 : FS := { fs with hasInput := true }
  if execOk then
    let fs2 : FS := { fs1 with hasOutput := true }
    (({ fs2 with hasInput := false, hasOutput := false } : FS), true)
  else
    (fs1, false)

/-! ### The fallback orchestrator (`addCharacterOverlays`, lines 404-469) -/

/-- Identifiers for the calls the orchestrator can make: the four
strategies it actually invokes, the colored-boxes strategy (exported but
reachable from no orchestrator path), and the orchestrator-level raw
passthrough. -/
inductive StratId where
  | copy
  | textOverlays
  | simpleText
  | basicText
  | coloredBoxes
  | passthrough
deriving DecidableEq

/-- Outcomes of the externally-effectful calls made during one job: the
first and (possible) second `justCopyVideo` invocation, the three text
strategies, and the final `fetchFile(videoFile)` of the raw passthrough.
An `Except.error` models a throw. -/
structure Env where
  copyResult1 : Except String Bytes
  copyResult2 : Except String Bytes
  textOverlaysResult : Except String Bytes
  simpleTextResult : Except String Bytes
  basicTextResult : Except String Bytes
  fetchOk : Bool
  fetchError : String

/-- The error message built on total failure (line 466):
`Video processing completely failed: ${copyError}. Original video also failed: ${originalError}`. -/
def exhaustionMsg (copyError originalError : String) : String :=
  "Video processing completely failed: " ++ copyError ++
    ". Original video also failed: " ++ originalError

/-- The orchestrator `addCharacterOverlays`, translated from the nested
`try`/`catch` structure of the source.  It first computes (and ignores)
the validation verdict, then: (1) health-check `justCopyVideo`; on its
failure the outer `catch` runs the raw passthrough.  (2) with a non-empty
character list, `addTextOverlays`, then `addSimpleTextOverlay`, then
`addBasicTextOverlay`, each on the previous one's throw; if all three
threw, a second `justCopyVideo` whose throw also reaches the outer
`catch`.  (3) with an empty list, the second `justCopyVideo` directly.
The raw passthrough wraps the original file bytes, or throws
`exhaustionMsg` when that read also fails.  Returns the result and the
trace of calls made, in order. -/
def addCharacterOverlays (env : Env) (videoFile : VideoFile) (characters : List Character) :
    Except String Bytes × List StratId :=
  let _validation := validateVideoFile videoFile
  match env.copyResult1 with
  | .error copyError =>
    if env.fetchOk then
      (.ok videoFile.bytes, [.copy, .passthrough])
    else
      (.error (exhaustionMsg copyError env.fetchError), [.copy, .passthrough])
  | .ok _ =>
    if 0 < characters.length then
      match env.textOverlaysResult with
      | .ok b => (.ok b, [.copy, .textOverlays])
      | .error _ =>
        match env.simpleTextResult with
        | .ok b => (.ok b, [.copy, .textOverlays, .simpleText])
        | .error _ =>
          match env.basicTextResult with
          | .ok b => (.ok b, [.copy, .textOverlays, .simpleText, .basicText])
          | .error _ =>
            match env.copyResult2 with
            | .ok b => (.ok b, [.copy, .textOverlays, .simpleText, .basicText, .copy])
            | .error copyError =>
              if env.fetchOk then
                (.ok videoFile.bytes,
                  [.copy, .textOverlays, .simpleText, .basicText, .copy, .passthrough])
              else
                (.error (exhaustionMsg copyError env.fetchError),
                  [.copy, .textOverlays, .simpleText, .basicText, .copy, .passthrough])
    else
      match env.copyResult2 with
      | .ok b => (.ok b, [.copy, .copy])
      | .error copyError =>
        if env.fetchOk then
          (.ok videoFile.bytes, [.copy, .copy, .passthrough])
        else
          (.error (exhaustionMsg copyError env.fetchError), [.copy, .copy, .passthrough])

/-- The result component of an orchestrated job. -/
def ocResult (env : Env) (videoFile : VideoFile) (characters : List Character) :
    Except String Bytes :=
  (addCharacterOverlays env videoFile characters).1

/-- The invocation trace of an orchestrated job. -/
def ocTrace (env : Env) (videoFile : VideoFile) (characters : List Character) :
    List StratId :=
  (addCharacterOverlays env videoFile characters).2

/-! ### The encoder session manager (`loadFFmpeg`, lines 5-47) -/

/-- The module-level state of `lib/ffmpeg.ts`: the `ffmpeg` variable
(`None` before the first call), with handles identified by a counter so
distinct `new FFmpeg()` allocations are distinguishable. -/
structure FFState where
  ffmpeg : Option Nat
  nextId : Nat
deriving DecidableEq

/-- The module's initial state: `let ffmpeg: FFmpeg | null = null`. -/
def initFFState : FFState := ⟨none, 0⟩

/-- What one `loadFFmpeg()` call produced: its result (returned handle or
thrown error), the module state afterwards, and whether it attempted the
engine load (`ffmpeg.load(...)`). -/
structure LoadOutcome where
  result : Except String Nat
  state : FFState
  attemptedLoad : Bool

/-- `loadFFmpeg`, parameterized by whether the engine load succeeds this
call.  If the module handle is set it is returned at once.  Otherwise a
fresh handle is assigned to the module variable *before* the `try` block;
on load failure the error is rethrown but the assignment stays. -/
def loadFFmpeg (loadOk : Bool) (s : FFState) : LoadOutcome :=
  match s.ffmpeg with
  | some h => ⟨.ok h, s, false⟩
  | none =>
    let h := s.nextId
    let s1 : FFState := ⟨some h, s.nextId + 1⟩
    if loadOk then ⟨.ok h, s1, true⟩
    else ⟨.error "Failed to load FFmpeg", s1, true⟩

/-! ### Sample data for witnesses and counterexamples -/

/-- A typical annotation: text `Hi` at the center of the frame. -/
def sampleCharacter : Character := ⟨"Hi", 1, "friend", "e", 50, 50, 1, 0⟩

/-- A well-formed upload: 2KB of content declared as `video/mp4`. -/
def sampleFile : VideoFile := ⟨List.replicate 2048 7, "video/mp4"⟩

/-- Same content as `sampleFile` but declared as `text/plain`, so the
size/type validation rejects it. -/
def badTypeFile : VideoFile := ⟨List.replicate 2048 7, "text/plain"⟩

/-- Every external call succeeds. -/
def envAllOk : Env := ⟨.ok [1], .ok [2], .ok [3], .ok [4], .ok [5], true, "none"⟩

/-- Every strategy call and the final passthrough read fail. -/
def envAllFail : Env :=
  ⟨.error "copy failed", .error "copy failed", .error "text failed",
    .error "simple failed", .error "basic failed", false, "fetch failed"⟩

/-- Every strategy call fails but the passthrough read succeeds. -/
def envAllFailFetchOk : Env :=
  ⟨.error "copy failed", .error "copy failed", .error "text failed",
    .error "simple failed", .error "basic failed", true, "none"⟩

/-! ### Theorems -/

/-- C7: for annotations with `x, y ∈ [0, 100]`, the pixel positions
computed by both filter builders (`addTextOverlays` and `addColoredBoxes`)
lie within `[margin, dimension - margin]` on both axes, with margin 10 and
the fixed 1088x1920 frame. -/
theorem positions_clamped (xPct yPct : ℚ) (hx0 : 0 ≤ xPct) (hx1 : xPct ≤ 100)
    (hy0 : 0 ≤ yPct) (hy1 : yPct ≤ 100) :
    (10 ≤ textOverlayX xPct ∧ textOverlayX xPct ≤ 1088 - 10) ∧
    (10 ≤ textOverlayY yPct ∧ textOverlayY yPct ≤ 1920 - 10) ∧
    (10 ≤ coloredBoxX xPct ∧ coloredBoxX xPct ≤ 1088 - 10) ∧
    (10 ≤ coloredBoxY yPct ∧ coloredBoxY yPct ≤ 1920 - 10) := by
  unfold textOverlayX textOverlayY coloredBoxX coloredBoxY
  refine ⟨⟨le_max_left _ _, ?_⟩, ⟨le_max_left _ _, ?_⟩,
    ⟨le_max_left _ _, ?_⟩, ⟨le_max_left _ _, ?_⟩⟩ <;>
    exact max_le (by norm_num) (le_trans (min_le_left _ _) (by norm_num))

/-- Witness for C7 at the concrete annotation position (50, 50). -/
theorem positions_clamped_witness :
    ((0:ℚ) ≤ 50 ∧ (50:ℚ) ≤ 100) ∧
    ((10 ≤ textOverlayX 50 ∧ textOverlayX 50 ≤ 1088 - 10) ∧
     (10 ≤ textOverlayY 50 ∧ textOverlayY 50 ≤ 1920 - 10) ∧
     (10 ≤ coloredBoxX 50 ∧ coloredBoxX 50 ≤ 1088 - 10) ∧
     (10 ≤ coloredBoxY 50 ∧ coloredBoxY 50 ≤ 1920 - 10)) :=
  ⟨⟨by norm_num, by norm_num⟩,
    positions_clamped 50 50 (by norm_num) (by norm_num) (by norm_num) (by norm_num)⟩

/-- C10: after a failed initial engine load, the module-level handle stays
assigned; any later `loadFFmpeg` call returns that same never-loaded
handle immediately — no new load attempt, no throw, state unchanged. -/
theorem loadFFmpeg_failed_load_memoized :
    (loadFFmpeg false initFFState).result = .error "Failed to load FFmpeg" ∧
    (loadFFmpeg false initFFState).state.ffmpeg = some 0 ∧
    ∀ loadOk2 : Bool,
      (loadFFmpeg loadOk2 (loadFFmpeg false initFFState).state).result = .ok 0 ∧
      (loadFFmpeg loadOk2 (loadFFmpeg false initFFState).state).attemptedLoad = false ∧
      (loadFFmpeg loadOk2 (loadFFmpeg false initFFState).state).state =
        (loadFFmpeg false initFFState).state := by
  refine ⟨rfl, rfl, ?_⟩
  intro loadOk2
  cases loadOk2 <;> exact ⟨rfl, rfl, rfl⟩

/-- What `escapedText` does to one character of a backslash-free input:
quote and colon get a backslash prefix, everything else is untouched. -/
def escapeChar (a : Char) : List Char :=
  if a = quoteChar then [backslashChar, quoteChar]
  else if a = colonChar then [backslashChar, colonChar]
  else [a]

theorem replaceAllChar_append (c : Char) (r : List Char) (xs ys : List Char) :
    replaceAllChar c r (xs ++ ys) = replaceAllChar c r xs ++ replaceAllChar c r ys := by
  induction xs with
  | nil => rfl
  | cons a rest ih => simp [replaceAllChar, ih]

theorem escapedText_cons (a : Char) (s : List Char) :
    escapedText (a :: s) = escapeChar a ++ escapedText s := by
  show replaceAllChar colonChar [backslashChar, colonChar]
      ((if a = quoteChar then [backslashChar, quoteChar] else [a]) ++
        replaceAllChar quoteChar [backslashChar, quoteChar] s) = _
  rw [replaceAllChar_append]
  congr 1
  by_cases hq : a = quoteChar
  · subst hq; simp only [if_pos rfl, escapeChar, if_pos rfl]; decide
  · by_cases hc : a = colonChar
    · subst hc
      rw [if_neg hq]
      simp only [escapeChar, if_neg hq, if_pos rfl]
      decide
    · rw [if_neg hq]
      simp [replaceAllChar, escapeChar, hq, hc]

theorem unescape_escaped_pair (c : Char) (t : List Char) :
    unescapeFilterText (backslashChar :: c :: t) = c :: unescapeFilterText t := by
  simp [unescapeFilterText]

theorem unescape_literal_char (a : Char) (t : List Char)
    (ha : isFilterSpecial a = false) :
    unescapeFilterText (a :: t) = a :: unescapeFilterText t := by
  have hb : a ≠ backslashChar := fun h => by subst h; exact absurd ha (by decide)
  cases t with
  | nil => simp [unescapeFilterText, ha, hb]
  | cons b rest => simp [unescapeFilterText, ha, hb]

/-- Counterexample for C5: the source escapes only single quotes and
colons.  A backslash passes through unescaped and the mini-language then
consumes it as an escape, and a bracket passes through unescaped and the
mini-language reads it as syntax — in both cases the parsed text is not
the original. -/
theorem escaping_roundtrip_counterexample :
    escapedText [backslashChar, 'a'] = [backslashChar, 'a'] ∧
    unescapeFilterText (escapedText [backslashChar, 'a']) = ['a'] ∧
    unescapeFilterText (escapedText [backslashChar, 'a']) ≠ [backslashChar, 'a'] ∧
    escapedText [lbracketChar, 'a'] = [lbracketChar, 'a'] ∧
    unescapeFilterText (escapedText [lbracketChar, 'a']) ≠ [lbracketChar, 'a'] := by
  decide

/-- C5 amended: the construction escapes only the single-quote and colon
characters (quote first); parsing the escaped text under the
mini-language recovers the original literal text only for texts
containing no backslash and no bracket characters.  Texts containing a
backslash or a bracket are not round-trip safe. -/
theorem escaping_roundtrip_amended (s : List Char) (h : backslashChar ∉ s)
    (hl : lbracketChar ∉ s) (hr : rbracketChar ∉ s) :
    unescapeFilterText (escapedText s) = s := by
  induction s with
  | nil => rfl
  | cons a rest ih =>
    have hrest : backslashChar ∉ rest := fun hx => h (List.mem_cons_of_mem _ hx)
    have hlrest : lbracketChar ∉ rest := fun hx => hl (List.mem_cons_of_mem _ hx)
    have hrrest : rbracketChar ∉ rest := fun hx => hr (List.mem_cons_of_mem _ hx)
    have ha : a ≠ backslashChar := fun hab => h (hab ▸ List.mem_cons_self _ _)
    have hal : a ≠ lbracketChar := fun hab => hl (hab ▸ List.mem_cons_self _ _)
    have har : a ≠ rbracketChar := fun hab => hr (hab ▸ List.mem_cons_self _ _)
    rw [escapedText_cons]
    by_cases hq : a = quoteChar
    · subst hq
      rw [show escapeChar quoteChar = [backslashChar, quoteChar] from rfl]
      rw [List.cons_append, List.cons_append, List.nil_append,
        unescape_escaped_pair, ih hrest hlrest hrrest]
    · by_cases hc : a = colonChar
      · subst hc
        rw [show escapeChar colonChar = [backslashChar, colonChar] from by decide]
        rw [List.cons_append, List.cons_append, List.nil_append,
          unescape_escaped_pair, ih hrest hlrest hrrest]
      · have hspec : isFilterSpecial a = false := by
          simp [isFilterSpecial, ha, hq, hc, hal, har]
        rw [show escapeChar a = [a] from by simp [escapeChar, hq, hc]]
        rw [List.cons_append, List.nil_append, unescape_literal_char a _ hspec,
          ih hrest hlrest hrrest]

/-- Witness for C5 amended: a text with a quote and a colon but no
backslash and no bracket round-trips. -/
theorem escaping_roundtrip_amended_witness :
    backslashChar ∉ (['a', quoteChar, colonChar] : List Char) ∧
    lbracketChar ∉ (['a', quoteChar, colonChar] : List Char) ∧
    rbracketChar ∉ (['a', quoteChar, colonChar] : List Char) ∧
    unescapeFilterText (escapedText ['a', quoteChar, colonChar]) =
      ['a', quoteChar, colonChar] :=
  ⟨by decide, by decide, by decide,
    escaping_roundtrip_amended ['a', quoteChar, colonChar]
      (by decide) (by decide) (by decide)⟩

/-- Counterexample for C6: `addTextOverlays` has no cleanup in its
`catch` block — when its engine exec throws, `input.mp4` is left in the
working namespace, so not every strategy cleans up on every exit path. -/
theorem cleanup_counterexample :
    (addTextOverlays false cleanFS).1 ≠ cleanFS ∧
    (addTextOverlays false cleanFS).1.hasInput = true ∧
    (addSimpleTextOverlay false cleanFS).1.hasInput = true ∧
    (addColoredBoxes false cleanFS).1.hasInput = true := by
  decide

/-- C6 amended: `addBasicTextOverlay` and `justCopyVideo` remove the fixed
session files on both exit paths, and every strategy removes them when it
returns normally; but `addTextOverlays`, `addSimpleTextOverlay` and
`addColoredBoxes` clean up only on success — when they throw, `input.mp4`
remains in the working namespace. -/
theorem cleanup_amended :
    (addBasicTextOverlay true cleanFS).1 = cleanFS ∧
    (addBasicTextOverlay false cleanFS).1 = cleanFS ∧
    (justCopyVideo true cleanFS).1 = cleanFS ∧
    (justCopyVideo false cleanFS).1 = cleanFS ∧
    (addTextOverlays true cleanFS).1 = cleanFS ∧
    (addSimpleTextOverlay true cleanFS).1 = cleanFS ∧
    (addColoredBoxes true cleanFS).1 = cleanFS ∧
    (addTextOverlays false cleanFS).1 = ⟨true, false⟩ ∧
    (addSimpleTextOverlay false cleanFS).1 = ⟨true, false⟩ ∧
    (addColoredBoxes false cleanFS).1 = ⟨true, false⟩ := by
  decide

/-- Counterexample for C1: the orchestrator performs no result-length
check.  When the health-check copy succeeds and `addTextOverlays` returns
a zero-length blob without throwing, that empty blob is returned to the
caller instead of escalating. -/
theorem zero_length_counterexample :
    ocResult ⟨.ok [1], .ok [1], .ok [], .error "t2", .error "t3", true, "fe"⟩
      sampleFile [sampleCharacter] = .ok [] ∧
    ocTrace ⟨.ok [1], .ok [1], .ok [], .error "t2", .error "t3", true, "fe"⟩
      sampleFile [sampleCharacter] = [.copy, .textOverlays] :=
  ⟨rfl, rfl⟩

/-- C1 amended: the orchestrator applies no validity check to any
strategy result.  At every position of the chain — `addTextOverlays`,
`addSimpleTextOverlay`, `addBasicTextOverlay`, and the final
`justCopyVideo` — whatever bytes a non-throwing strategy returns
(zero-length included) are returned to the caller, and no later strategy
or passthrough is invoked: only a thrown failure escalates. -/
theorem zero_length_amended (env : Env) (videoFile : VideoFile)
    (characters : List Character) (hne : characters ≠ []) :
    (∀ bb b, env.copyResult1 = .ok bb → env.textOverlaysResult = .ok b →
      ocResult env videoFile characters = .ok b ∧
      StratId.simpleText ∉ ocTrace env videoFile characters) ∧
    (∀ bb e1 b, env.copyResult1 = .ok bb → env.textOverlaysResult = .error e1 →
      env.simpleTextResult = .ok b →
      ocResult env videoFile characters = .ok b ∧
      StratId.basicText ∉ ocTrace env videoFile characters) ∧
    (∀ bb e1 e2 b, env.copyResult1 = .ok bb → env.textOverlaysResult = .error e1 →
      env.simpleTextResult = .error e2 → env.basicTextResult = .ok b →
      ocResult env videoFile characters = .ok b ∧
      (ocTrace env videoFile characters).count StratId.copy = 1) ∧
    (∀ bb e1 e2 e3 b, env.copyResult1 = .ok bb → env.textOverlaysResult = .error e1 →
      env.simpleTextResult = .error e2 → env.basicTextResult = .error e3 →
      env.copyResult2 = .ok b →
      ocResult env videoFile characters = .ok b ∧
      StratId.passthrough ∉ ocTrace env videoFile characters) := by
  rcases List.exists_cons_of_ne_nil hne with ⟨c, cs, rfl⟩
  rcases env with ⟨c1, c2, t1, t2, t3, fo, fe⟩
  cases c1 <;> cases t1 <;> cases t2 <;> cases t3 <;> cases c2 <;> cases fo <;>
    simp [ocResult, ocTrace, addCharacterOverlays]

/-- Witness for C1 amended: a concrete job whose simple-text strategy
returns an empty blob after the full text strategy threw — the empty
blob reaches the caller and the basic-text strategy is never invoked. -/
theorem zero_length_amended_witness :
    ([sampleCharacter] ≠ ([] : List Character)) ∧
    (⟨.ok [1], .ok [1], .error "t1", .ok [], .error "t3", true, "fe"⟩ : Env).simpleTextResult = .ok [] ∧
    ocResult ⟨.ok [1], .ok [1], .error "t1", .ok [], .error "t3", true, "fe"⟩
      sampleFile [sampleCharacter] = .ok [] ∧
    StratId.basicText ∉ ocTrace ⟨.ok [1], .ok [1], .error "t1", .ok [], .error "t3", true, "fe"⟩
      sampleFile [sampleCharacter] :=
  ⟨by simp, rfl,
    ((zero_length_amended ⟨.ok [1], .ok [1], .error "t1", .ok [], .error "t3", true, "fe"⟩
      sampleFile [sampleCharacter] (by simp)).2.1 [1] "t1" [] rfl rfl rfl).1,
    ((zero_length_amended ⟨.ok [1], .ok [1], .error "t1", .ok [], .error "t3", true, "fe"⟩
      sampleFile [sampleCharacter] (by simp)).2.1 [1] "t1" [] rfl rfl rfl).2⟩

/-- C4: when every rendering strategy fails (and the last-resort read of
the original file succeeds, which for an in-memory upload it does), the
orchestrator returns a blob whose bytes are exactly the original input
bytes. -/
theorem all_fail_returns_original (env : Env) (videoFile : VideoFile)
    (characters : List Character) (e1 : String)
    (h1 : env.copyResult1 = .error e1)
    (h2 : ∃ e, env.copyResult2 = .error e)
    (h3 : ∃ e, env.textOverlaysResult = .error e)
    (h4 : ∃ e, env.simpleTextResult = .error e)
    (h5 : ∃ e, env.basicTextResult = .error e)
    (hf : env.fetchOk = true) :
    ocResult env videoFile characters = .ok videoFile.bytes := by
  simp [ocResult, addCharacterOverlays, h1, hf]

/-- Witness for C4: with every strategy failing and the passthrough read
succeeding, the output is the original bytes of `sampleFile`. -/
theorem all_fail_returns_original_witness :
    envAllFailFetchOk.copyResult1 = .error "copy failed" ∧
    envAllFailFetchOk.fetchOk = true ∧
    ocResult envAllFailFetchOk sampleFile [sampleCharacter] = .ok sampleFile.bytes :=
  ⟨rfl, rfl,
    all_fail_returns_original envAllFailFetchOk sampleFile [sampleCharacter]
      "copy failed" rfl ⟨_, rfl⟩ ⟨_, rfl⟩ ⟨_, rfl⟩ ⟨_, rfl⟩ rfl⟩

/-- C8: with an empty annotation list, the orchestrator returns the
safe-re-encode (`justCopyVideo`) result directly, and no text-overlay or
box-overlay strategy appears in the invocation trace. -/
theorem empty_annotations_shortcut (env : Env) (videoFile : VideoFile) (b bb : Bytes)
    (h1 : env.copyResult1 = .ok bb) (h2 : env.copyResult2 = .ok b) :
    ocResult env videoFile [] = .ok b ∧
    ocTrace env videoFile [] = [.copy, .copy] ∧
    StratId.textOverlays ∉ ocTrace env videoFile [] ∧
    StratId.simpleText ∉ ocTrace env videoFile [] ∧
    StratId.basicText ∉ ocTrace env videoFile [] ∧
    StratId.coloredBoxes ∉ ocTrace env videoFile [] := by
  refine ⟨?_, ?_, ?_, ?_, ?_, ?_⟩ <;>
    simp [ocResult, ocTrace, addCharacterOverlays, h1, h2]

/-- Witness for C8: the empty-annotation job returns the copy result. -/
theorem empty_annotations_shortcut_witness :
    envAllOk.copyResult1 = .ok [1] ∧ envAllOk.copyResult2 = .ok [2] ∧
    (ocResult envAllOk sampleFile [] = .ok [2] ∧
     ocTrace envAllOk sampleFile [] = [.copy, .copy] ∧
     StratId.textOverlays ∉ ocTrace envAllOk sampleFile [] ∧
     StratId.simpleText ∉ ocTrace envAllOk sampleFile [] ∧
     StratId.basicText ∉ ocTrace envAllOk sampleFile [] ∧
     StratId.coloredBoxes ∉ ocTrace envAllOk sampleFile []) :=
  ⟨rfl, rfl, empty_annotations_shortcut envAllOk sampleFile [2] [1] rfl rfl⟩

/-- C9: a failed size/type validation never blocks processing — an input
the validator rejects is run through exactly the same strategy chain, with
the same result and the same invocation trace, as a validator-approved
input with the same bytes. -/
theorem validation_never_blocks (env : Env) (f g : VideoFile)
    (characters : List Character) (hbytes : g.bytes = f.bytes)
    (hinv : (validateVideoFile g).valid = false) :
    addCharacterOverlays env g characters = addCharacterOverlays env f characters := by
  simp [addCharacterOverlays, hbytes]

/-- Witness for C9: `badTypeFile` fails validation (declared type
`text/plain`) yet is processed identically to the valid `sampleFile`
carrying the same bytes. -/
theorem validation_never_blocks_witness :
    badTypeFile.bytes = sampleFile.bytes ∧
    (validateVideoFile badTypeFile).valid = false ∧
    (validateVideoFile sampleFile).valid = true ∧
    addCharacterOverlays envAllOk badTypeFile [sampleCharacter] =
      addCharacterOverlays envAllOk sampleFile [sampleCharacter] := by
  have hinv : (validateVideoFile badTypeFile).valid = false := by
    have h : strStartsWith "text/plain" "video/" = false := by decide
    simp only [validateVideoFile, badTypeFile, h]
    norm_num
  refine ⟨rfl, hinv, ?_, ?_⟩
  · have h : strStartsWith "video/mp4" "video/" = true := by decide
    simp only [validateVideoFile, sampleFile, h]
    norm_num
  · exact validation_never_blocks envAllOk sampleFile badTypeFile [sampleCharacter] rfl hinv

/-- Counterexample for C2: when the full text strategy and the simplified
text strategy both fail, the orchestrator's third attempt is
`addBasicTextOverlay` (a fixed `TEST` text overlay), not the geometric
colored-boxes placeholder; `addColoredBoxes` is reachable from no
orchestrator path. -/
theorem escalation_counterexample :
    ocTrace ⟨.ok [1], .ok [1], .error "t1", .error "t2", .ok [3], true, "fe"⟩
      sampleFile [sampleCharacter] =
      [.copy, .textOverlays, .simpleText, .basicText] ∧
    StratId.coloredBoxes ∉
      ocTrace ⟨.ok [1], .ok [1], .error "t1", .error "t2", .ok [3], true, "fe"⟩
        sampleFile [sampleCharacter] := by
  exact ⟨rfl, by decide⟩

/-- C2 amended: for a non-empty annotation list the escalation chain is
health-check re-encode, full text, simplified text, basic fixed-text,
re-encode (never `addColoredBoxes`); each text strategy runs at most once,
a failed health-check copy is not re-invoked, each failure triggers the
next strategy in that order, and only total text failure re-runs the
re-encode. -/
theorem escalation_amended (env : Env) (videoFile : VideoFile)
    (characters : List Character) (hne : characters ≠ []) :
    StratId.coloredBoxes ∉ ocTrace env videoFile characters ∧
    (ocTrace env videoFile characters).count StratId.textOverlays ≤ 1 ∧
    (ocTrace env videoFile characters).count StratId.simpleText ≤ 1 ∧
    (ocTrace env videoFile characters).count StratId.basicText ≤ 1 ∧
    (∀ e, env.copyResult1 = .error e →
      (ocTrace env videoFile characters).count StratId.copy = 1) ∧
    (∀ bb, env.copyResult1 = .ok bb →
      (ocTrace env videoFile characters).take 2 = [.copy, .textOverlays]) ∧
    (∀ bb e1, env.copyResult1 = .ok bb → env.textOverlaysResult = .error e1 →
      StratId.simpleText ∈ ocTrace env videoFile characters) ∧
    (∀ bb e1 e2, env.copyResult1 = .ok bb → env.textOverlaysResult = .error e1 →
      env.simpleTextResult = .error e2 →
      StratId.basicText ∈ ocTrace env videoFile characters) ∧
    (∀ bb e1 e2 e3, env.copyResult1 = .ok bb → env.textOverlaysResult = .error e1 →
      env.simpleTextResult = .error e2 → env.basicTextResult = .error e3 →
      (ocTrace env videoFile characters).count StratId.copy = 2) := by
  rcases List.exists_cons_of_ne_nil hne with ⟨c, cs, rfl⟩
  rcases env with ⟨c1, c2, t1, t2, t3, fo, fe⟩
  cases c1 <;> cases t1 <;> cases t2 <;> cases t3 <;> cases c2 <;> cases fo <;>
    simp [ocTrace, addCharacterOverlays]

/-- Witness for C2 amended, at a job in which every strategy fails: the
colored-boxes strategy stays uninvoked and the failed health-check copy is
invoked exactly once. -/
theorem escalation_amended_witness :
    ([sampleCharacter] ≠ ([] : List Character)) ∧
    StratId.coloredBoxes ∉ ocTrace envAllFail sampleFile [sampleCharacter] ∧
    (ocTrace envAllFail sampleFile [sampleCharacter]).count StratId.copy = 1 :=
  ⟨by simp,
    (escalation_amended envAllFail sampleFile [sampleCharacter] (by simp)).1,
    (escalation_amended envAllFail sampleFile [sampleCharacter]
      (by simp)).2.2.2.2.1 "copy failed" rfl⟩

/-- Counterexample for C3: a job that throws although the three text
strategies were never attempted (they would have succeeded): when the
health-check re-encode and the passthrough read both fail, the caller gets
an error built from those two causes only — not a list of 4 per-strategy
causes. -/
theorem exhaustion_counterexample :
    ocResult ⟨.error "copy boom", .ok [9], .ok [9], .ok [9], .ok [9], false, "fetch boom"⟩
      sampleFile [sampleCharacter] =
      .error (exhaustionMsg "copy boom" "fetch boom") ∧
    ocTrace ⟨.error "copy boom", .ok [9], .ok [9], .ok [9], .ok [9], false, "fetch boom"⟩
      sampleFile [sampleCharacter] = [.copy, .passthrough] ∧
    (⟨.error "copy boom", .ok [9], .ok [9], .ok [9], .ok [9], false, "fetch boom"⟩ : Env).textOverlaysResult
      = .ok [9] :=
  ⟨rfl, rfl, rfl⟩

/-- C3 amended: the orchestrator throws exactly when the raw passthrough
read fails together with a re-encode invocation (the health check, or the
final re-encode after the text strategies all failed or the annotation
list was empty); the thrown error carries two causes — the re-encode
error and the passthrough error — and the text strategies need not have
been attempted. -/
theorem exhaustion_amended (env : Env) (videoFile : VideoFile)
    (characters : List Character) (e : String)
    (h : ocResult env videoFile characters = .error e) :
    env.fetchOk = false ∧
    ((∃ c, env.copyResult1 = .error c ∧ e = exhaustionMsg c env.fetchError) ∨
     (∃ c, env.copyResult2 = .error c ∧ e = exhaustionMsg c env.fetchError)) := by
  rcases env with ⟨c1, c2, t1, t2, t3, fo, fe⟩
  cases characters <;> cases c1 <;> cases t1 <;> cases t2 <;> cases t3 <;>
    cases c2 <;> cases fo <;>
    simp_all [ocResult, addCharacterOverlays]

/-- Witness for C3 amended, at a job in which every call fails. -/
theorem exhaustion_amended_witness :
    ocResult envAllFail sampleFile [sampleCharacter] =
      .error (exhaustionMsg "copy failed" "fetch failed") ∧
    (envAllFail.fetchOk = false ∧
     ((∃ c, envAllFail.copyResult1 = .error c ∧
        exhaustionMsg "copy failed" "fetch failed" = exhaustionMsg c envAllFail.fetchError) ∨
      (∃ c, envAllFail.copyResult2 = .error c ∧
        exhaustionMsg "copy failed" "fetch failed" = exhaustionMsg c envAllFail.fetchError))) :=
  ⟨rfl, exhaustion_amended envAllFail sampleFile [sampleCharacter]
    (exhaustionMsg "copy failed" "fetch failed") rfl⟩

end VideoCharacterApp
